import Mathlib

/-!
Verification development for the climate_guard_switch integration.

The repository contains two parallel implementations of the guard control
loop: the switch entity (custom_components/climate_guard_switch/switch.py,
class ClimateGuardSwitch) and the coordinator
(custom_components/climate_guard_switch/coordinator.py, class
ClimateGuardCoordinator).  The two are near-verbatim copies; they differ in
exactly two places:
  * the coordinator checks that the run limit is nonzero before enforcing it
    in the heartbeat tick, the switch entity does not;
  * the coordinator checks that the cooldown is nonzero in
    _is_cooldown_active, the switch entity does not.
Both implementations are embedded below: namespace CG holds the coordinator
functions, namespace SW the switch-entity functions; the parts that are
textually identical in both files are shared top level definitions.

Modelling conventions:
  * timestamps and timedeltas are Int seconds (dt_util.now() is env.now; a
    single evaluation reads the clock once);
  * hass.states.get for the sun / weather entity is env.sunState /
    env.weatherState, where none models an unavailable entity (the source
    tests the result with a truthiness check);
  * service calls are recorded in a list of Cmd values, in dispatch order;
  * the blocking turn_on service call may raise; env.onDispatchFails decides
    the outcome of that call (the off call is dispatched with blocking false
    and its outcome is never observed by the controller);
  * _heartbeat_remove_listener is modelled by the Bool heartbeat_listener
    (true iff the cancel handle is held);
  * async_set_updated_data / async_write_ha_state is modelled by the list of
    published snapshots returned from each handler.
-/

/-- One dispatched service call on the target switch entity. -/
inductive Cmd where
  | turnOn
  | turnOff
deriving DecidableEq, Repr

/-- Static configuration of one guard (merged data and options; see
const.py for keys and defaults).  Durations are kept in their configured
units: run limit and cooldown in minutes, heartbeat in seconds. -/
structure Config where
  target_entity : String
  sun_entity : Option String
  weather_entity : Option String
  climate_entity : Option String
  allowed_weather : List String
  run_limit_minutes : Nat
  cooldown_minutes : Nat
  heartbeat_seconds : Nat
deriving Repr

/-- self.run_limit as seconds (timedelta(minutes=run_limit).total_seconds()). -/
def runLimitSecs (cfg : Config) : Int := (cfg.run_limit_minutes : Int) * 60

/-- self.cooldown as seconds (timedelta(minutes=cooldown).total_seconds()). -/
def cooldownSecs (cfg : Config) : Int := (cfg.cooldown_minutes : Int) * 60

/-- The mutable per-controller runtime state (the same fields exist in both
ClimateGuardSwitch and ClimateGuardCoordinator). -/
structure GuardState where
  guard_enabled : Bool
  target_is_active : Bool
  last_run_time : Option Int
  run_start_time : Option Int
  heartbeat_listener : Bool
  cooldown_bypass : Bool
  block_reason : Option String
deriving DecidableEq, Repr

/-- The initial runtime state set in the constructors of both classes. -/
def initState : GuardState :=
  { guard_enabled := false
    target_is_active := false
    last_run_time := none
    run_start_time := none
    heartbeat_listener := false
    cooldown_bypass := false
    block_reason := none }

/-- External world as seen by one evaluation: the clock, the two watched
entity states and the outcome of the blocking on-command dispatch. -/
structure Env where
  now : Int
  sunState : Option String
  weatherState : Option String
  onDispatchFails : Bool
deriving Repr

/-- Outcome of hass.services.async_call(switch, turn_on, blocking=True):
the call can raise, which the callers of this model must contain. -/
def async_call_turn_on (env : Env) : Except String Unit :=
  if env.onDispatchFails then .error "dispatch failed" else .ok ()

/-- _pulse_target_on (identical in switch.py and coordinator.py): dispatch
the on-command; on error, log a warning and swallow the exception.  The
returned list records the attempted dispatch in either case. -/
def pulse_target_on (env : Env) : List Cmd :=
  match async_call_turn_on env with
  | .ok _ => [Cmd.turnOn]
  | .error _ => [Cmd.turnOn]

/-- _ensure_heartbeat_running (identical in both files): a no-op when the
listener is already held, otherwise schedule the interval timer. -/
def ensure_heartbeat (st : GuardState) : GuardState :=
  if st.heartbeat_listener then st else { st with heartbeat_listener := true }

/-- _stop_heartbeat (identical in both files). -/
def stop_heartbeat (st : GuardState) : GuardState :=
  if st.heartbeat_listener then { st with heartbeat_listener := false } else st

/-- Result of one start/stop action: the new state and the dispatched
commands. -/
structure ActResult where
  st : GuardState
  cmds : List Cmd
deriving Repr

/-- _start_target (identical in both files): consume the bypass ticket,
mark the target active, stamp the run start, pulse the on-command, and
ensure the heartbeat when the configured interval is nonzero. -/
def start_target (cfg : Config) (env : Env) (st : GuardState) : ActResult :=
  let st1 := if st.cooldown_bypass then { st with cooldown_bypass := false } else st
  let st2 := { st1 with target_is_active := true, run_start_time := some env.now }
  let cmds := pulse_target_on env
  let st3 := if cfg.heartbeat_seconds > 0 then ensure_heartbeat st2 else st2
  ⟨st3, cmds⟩

/-- _stop_target (identical in both files): cancel the heartbeat, dispatch
the off-command fire-and-forget (blocking=False, outcome unobserved), mark
the target inactive, stamp the cooldown start and clear the run start. -/
def stop_target (env : Env) (st : GuardState) : ActResult :=
  let st1 := stop_heartbeat st
  let cmds := [Cmd.turnOff]
  let st2 := { st1 with
    target_is_active := false
    last_run_time := some env.now
    run_start_time := none }
  ⟨st2, cmds⟩

/-- Sun gate (step 1 of _check_conditions, identical in both files): block
only when a sun entity is configured, its state lookup is truthy, and the
state is not above_horizon. -/
def sun_gate (cfg : Config) (env : Env) : Option String :=
  if cfg.sun_entity.isSome then
    match env.sunState with
    | some s => if s ≠ "above_horizon" then some ("Sun is " ++ s) else none
    | none => none
  else none

/-- Weather gate (step 2 of _check_conditions, identical in both files):
active only when a weather entity and a nonempty allow-list are configured;
an unavailable entity blocks with Weather unavailable, a state outside the
allow-list blocks with Weather is <state>. -/
def weather_gate (cfg : Config) (env : Env) : Option String :=
  if cfg.weather_entity.isSome ∧ cfg.allowed_weather ≠ [] then
    match env.weatherState with
    | none => some "Weather unavailable"
    | some w => if w ∉ cfg.allowed_weather then some ("Weather is " ++ w) else none
  else none

/-- Zero-padded two-digit rendering of a minute or second field. -/
def pad2 (n : Nat) : String := if n < 10 then "0" ++ toString n else toString n

/-- Python str(timedelta) for a whole-second timedelta of s seconds
(days are floored, the remainder is rendered H:MM:SS).  The source applies
str(remaining).split at the decimal point to drop microseconds; in this
integral-second model there is no fractional part to drop. -/
def tdStr (s : Int) : String :=
  let d := Int.fdiv s 86400
  let r := (s - d * 86400).toNat
  let hh := r / 3600
  let mm := r % 3600 / 60
  let ss := r % 60
  let base := toString hh ++ ":" ++ pad2 mm ++ ":" ++ pad2 ss
  if d = 0 then base
  else if d = 1 then "1 day, " ++ base
  else toString d ++ " days, " ++ base

/-- The cooldown block reason built in _check_conditions from the remaining
cooldown time. -/
def cooldownReason (remaining : Int) : String :=
  "Cooldown (" ++ tdStr remaining ++ ")"

/-- A status snapshot as published by the coordinator in _update_data. -/
structure Snapshot where
  guard_enabled : Bool
  target_active : Bool
  status : String
  reason : Option String
  cooldown_active : Bool
  last_run : Option Int
deriving DecidableEq, Repr

/-- Result of one coordinator handler: new state, dispatched commands and
published snapshots, in order. -/
structure StepResult where
  st : GuardState
  cmds : List Cmd
  snaps : List Snapshot
deriving Repr

namespace CG

/-- coordinator.py _is_cooldown_active: disabled when the cooldown duration
is zero, inactive when no run has ended yet, otherwise active while
now minus last_run_time is below the cooldown. -/
def is_cooldown_active (cfg : Config) (env : Env) (st : GuardState) : Bool :=
  if cooldownSecs cfg = 0 then false
  else
    match st.last_run_time with
    | none => false
    | some t => decide (env.now - t < cooldownSecs cfg)

/-- Step 3 of coordinator.py _check_conditions: when the cooldown is active
a set bypass ticket passes (and is not consumed here), otherwise block with
the remaining time.  getD 0 is safe: is_cooldown_active guarantees
last_run_time is set. -/
def cooldown_gate (cfg : Config) (env : Env) (st : GuardState) : Option String :=
  if is_cooldown_active cfg env st then
    if st.cooldown_bypass then none
    else some (cooldownReason ((st.last_run_time.getD 0 + cooldownSecs cfg) - env.now))
  else none

/-- coordinator.py _check_conditions: sun, weather, cooldown in order, first
failing gate returns (False, reason); all passing returns (True, None). -/
def check_conditions (cfg : Config) (env : Env) (st : GuardState) :
    Bool × Option String :=
  match sun_gate cfg env with
  | some r => (false, some r)
  | none =>
    match weather_gate cfg env with
    | some r => (false, some r)
    | none =>
      match cooldown_gate cfg env st with
      | some r => (false, some r)
      | none => (true, none)

/-- coordinator.py _update_data: the snapshot pushed to subscribers. -/
def update_data (cfg : Config) (env : Env) (st : GuardState) : Snapshot :=
  { guard_enabled := st.guard_enabled
    target_active := st.target_is_active
    status :=
      if st.target_is_active then "Active (Running)"
      else "Idle (" ++ st.block_reason.getD "Off" ++ ")"
    reason := st.block_reason
    cooldown_active := is_cooldown_active cfg env st
    last_run := st.last_run_time }

/-- coordinator.py _async_check_and_update: the core decision procedure. -/
def check_and_update (cfg : Config) (env : Env) (st : GuardState) : StepResult :=
  if !st.guard_enabled then
    let r := if st.target_is_active then stop_target env st else ActResult.mk st []
    let st1 := { r.st with block_reason := some "Guard Disabled" }
    ⟨st1, r.cmds, [update_data cfg env st1]⟩
  else
    let ar := check_conditions cfg env st
    let st1 := { st with block_reason := ar.2 }
    if ar.1 then
      let r := if !st1.target_is_active then start_target cfg env st1 else ActResult.mk st1 []
      let st2 := if cfg.heartbeat_seconds > 0 then ensure_heartbeat r.st else r.st
      ⟨st2, r.cmds, [update_data cfg env st2]⟩
    else
      let r := if st1.target_is_active then stop_target env st1 else ActResult.mk st1 []
      ⟨r.st, r.cmds, [update_data cfg env r.st]⟩

/-- coordinator.py _heartbeat_tick: enforce the run limit only when it is
nonzero; otherwise pulse while active and re-run the decision procedure. -/
def heartbeat_tick (cfg : Config) (env : Env) (st : GuardState) : StepResult :=
  if st.target_is_active && st.run_start_time.isSome
      && decide (runLimitSecs cfg > 0)
      && decide (env.now - st.run_start_time.getD 0 > runLimitSecs cfg) then
    let r := stop_target env st
    ⟨r.st, r.cmds, []⟩
  else
    let p := if st.target_is_active then pulse_target_on env else []
    let r := check_and_update cfg env st
    ⟨r.st, p ++ r.cmds, r.snaps⟩

/-- coordinator.py set_guard_state: overwrite the armed flag, overwrite the
stored last run time only when a truthy value is passed, and always schedule
a re-evaluation task (the returned Bool). -/
def set_guard_state (st : GuardState) (enabled : Bool) (last_run : Option Int) :
    GuardState × Bool :=
  let st1 := { st with guard_enabled := enabled }
  let st2 :=
    match last_run with
    | some t => { st1 with last_run_time := some t }
    | none => st1
  (st2, true)

end CG

/-- The attributes published by the switch entity on every
async_write_ha_state (extra_state_attributes in switch.py). -/
structure SWAttrs where
  guard_state : String
  target_is_active : Bool
  last_run_time : Option Int
  run_start_time : Option Int
  cooldown_active : Bool
  cooldown_bypass_armed : Bool
  target_entity : String
deriving DecidableEq, Repr

/-- Result of one switch-entity handler: new state, dispatched commands and
published attribute snapshots, in order. -/
structure SWStepResult where
  st : GuardState
  cmds : List Cmd
  snaps : List SWAttrs
deriving Repr

/-- A dependency-change event as consumed by _on_dependency_change: the
changed entity id and, when the old/new State objects are present, their
temperature attribute (ATTR_TEMPERATURE; none inside means the attribute is
absent). -/
structure DepEvent where
  entity_id : String
  old_temp : Option (Option Int)
  new_temp : Option (Option Int)
deriving Repr

namespace SW

/-- switch.py _is_cooldown_active: unlike the coordinator there is no check
that the cooldown duration is nonzero. -/
def is_cooldown_active (cfg : Config) (env : Env) (st : GuardState) : Bool :=
  match st.last_run_time with
  | none => false
  | some t => decide (env.now - t < cooldownSecs cfg)

/-- Step 3 of switch.py _check_conditions (same text as the coordinator but
over the switch-entity cooldown predicate). -/
def cooldown_gate (cfg : Config) (env : Env) (st : GuardState) : Option String :=
  if is_cooldown_active cfg env st then
    if st.cooldown_bypass then none
    else some (cooldownReason ((st.last_run_time.getD 0 + cooldownSecs cfg) - env.now))
  else none

/-- switch.py _check_conditions. -/
def check_conditions (cfg : Config) (env : Env) (st : GuardState) :
    Bool × Option String :=
  match sun_gate cfg env with
  | some r => (false, some r)
  | none =>
    match weather_gate cfg env with
    | some r => (false, some r)
    | none =>
      match cooldown_gate cfg env st with
      | some r => (false, some r)
      | none => (true, none)

/-- switch.py extra_state_attributes, captured at async_write_ha_state. -/
def attrs (cfg : Config) (env : Env) (st : GuardState) : SWAttrs :=
  { guard_state :=
      if st.target_is_active then "Active (Running)"
      else "Idle (" ++ st.block_reason.getD "Off" ++ ")"
    target_is_active := st.target_is_active
    last_run_time := st.last_run_time
    run_start_time := st.run_start_time
    cooldown_active := is_cooldown_active cfg env st
    cooldown_bypass_armed := st.cooldown_bypass
    target_entity := cfg.target_entity }

/-- switch.py _async_check_and_update. -/
def check_and_update (cfg : Config) (env : Env) (st : GuardState) : SWStepResult :=
  if !st.guard_enabled then
    let r := if st.target_is_active then stop_target env st else ActResult.mk st []
    let st1 := { r.st with block_reason := some "Guard Disabled" }
    ⟨st1, r.cmds, [attrs cfg env st1]⟩
  else
    let ar := check_conditions cfg env st
    let st1 := { st with block_reason := ar.2 }
    if ar.1 then
      let r := if !st1.target_is_active then start_target cfg env st1 else ActResult.mk st1 []
      let st2 := if cfg.heartbeat_seconds > 0 then ensure_heartbeat r.st else r.st
      ⟨st2, r.cmds, [attrs cfg env st2]⟩
    else
      let r := if st1.target_is_active then stop_target env st1 else ActResult.mk st1 []
      ⟨r.st, r.cmds, [attrs cfg env r.st]⟩

/-- switch.py _heartbeat_tick: note the missing nonzero check on the run
limit, present only in the coordinator version. -/
def heartbeat_tick (cfg : Config) (env : Env) (st : GuardState) : SWStepResult :=
  if st.target_is_active && st.run_start_time.isSome
      && decide (env.now - st.run_start_time.getD 0 > runLimitSecs cfg) then
    let r := stop_target env st
    ⟨r.st, r.cmds, []⟩
  else
    let p := if st.target_is_active then pulse_target_on env else []
    let r := check_and_update cfg env st
    ⟨r.st, p ++ r.cmds, r.snaps⟩

/-- switch.py async_turn_on: arm then re-run the decision procedure. -/
def turn_on (cfg : Config) (env : Env) (st : GuardState) : SWStepResult :=
  check_and_update cfg env { st with guard_enabled := true }

/-- switch.py async_turn_off: disarm then re-run the decision procedure. -/
def turn_off (cfg : Config) (env : Env) (st : GuardState) : SWStepResult :=
  check_and_update cfg env { st with guard_enabled := false }

/-- switch.py _on_dependency_change: a setpoint change on the configured
thermostat entity arms the cooldown bypass (regardless of the armed flag),
then the decision procedure runs unconditionally. -/
def on_dependency_change (cfg : Config) (env : Env) (ev : DepEvent)
    (st : GuardState) : SWStepResult :=
  let st1 :=
    if cfg.climate_entity = some ev.entity_id then
      match ev.old_temp, ev.new_temp with
      | some ot, some nt =>
        if ot ≠ nt then { st with cooldown_bypass := true } else st
      | _, _ => st
    else st
  check_and_update cfg env st1

end SW

/-- One external trigger of the switch-entity controller, with the
environment it observes. -/
inductive Trigger where
  | arm (env : Env)
  | disarm (env : Env)
  | dep (env : Env) (ev : DepEvent)
  | tick (env : Env)

/-- Whether a trigger is a thermostat setpoint change, i.e. the one event
that arms the cooldown bypass in _on_dependency_change. -/
def setsBypassB (cfg : Config) : Trigger → Bool
  | .dep _ ev =>
    decide (cfg.climate_entity = some ev.entity_id) &&
      (match ev.old_temp, ev.new_temp with
       | some ot, some nt => decide (ot ≠ nt)
       | _, _ => false)
  | _ => false

/-- State reached after one trigger is handled by the switch entity. -/
def stepT (cfg : Config) (st : GuardState) : Trigger → GuardState
  | .arm env => (SW.turn_on cfg env st).st
  | .disarm env => (SW.turn_off cfg env st).st
  | .dep env ev => (SW.on_dependency_change cfg env ev st).st
  | .tick env => (SW.heartbeat_tick cfg env st).st

/-- State reached after a sequence of triggers. -/
def runT (cfg : Config) (st : GuardState) (ts : List Trigger) : GuardState :=
  ts.foldl (stepT cfg) st

/-- Example environment: time zero, no sun or weather entity state, the
on-command dispatch succeeds. -/
def exEnv : Env := ⟨0, none, none, false⟩

/-- Example configuration with no gate entities and the default durations
(run limit 10 minutes, cooldown 40 minutes, heartbeat 10 seconds). -/
def exCfg : Config := ⟨"switch.target", none, none, none, [], 10, 40, 10⟩

/-- Example configuration with a sun gate and a weather gate whose
allow-list admits only sunny. -/
def exCfgGates : Config :=
  ⟨"switch.target", some "sun.sun", some "weather.home", none, ["sunny"], 10, 40, 10⟩

/-- Example configuration with run limit zero (documented as unlimited). -/
def exCfgRL0 : Config := ⟨"switch.target", none, none, none, [], 0, 40, 10⟩

/-- Example configuration with cooldown zero (documented as disabled). -/
def exCfgCd0 : Config := ⟨"switch.target", none, none, none, [], 10, 0, 10⟩

/-- Example configuration with a thermostat bypass entity. -/
def exCfgClimate : Config :=
  ⟨"switch.target", none, none, some "climate.c", [], 10, 40, 10⟩

/-- Example state of an armed controller with the target running since
time 0 and the heartbeat scheduled. -/
def exRunning : GuardState :=
  { guard_enabled := true
    target_is_active := true
    last_run_time := none
    run_start_time := some 0
    heartbeat_listener := true
    cooldown_bypass := false
    block_reason := none }

/-- Example state of an armed idle controller whose previous run ended at
time 0. -/
def exCooling : GuardState :=
  { initState with guard_enabled := true, last_run_time := some 0 }

/-! ## Helper lemmas -/

theorem pulse_const (env : Env) : pulse_target_on env = [Cmd.turnOn] := by
  rcases env with ⟨n, s, w, b⟩
  cases b <;> rfl

theorem stop_heartbeat_fields (st : GuardState) :
    (stop_heartbeat st).guard_enabled = st.guard_enabled ∧
    (stop_heartbeat st).target_is_active = st.target_is_active ∧
    (stop_heartbeat st).last_run_time = st.last_run_time ∧
    (stop_heartbeat st).run_start_time = st.run_start_time ∧
    (stop_heartbeat st).cooldown_bypass = st.cooldown_bypass ∧
    (stop_heartbeat st).block_reason = st.block_reason := by
  unfold stop_heartbeat
  split <;> exact ⟨rfl, rfl, rfl, rfl, rfl, rfl⟩

theorem ensure_heartbeat_fields (st : GuardState) :
    (ensure_heartbeat st).guard_enabled = st.guard_enabled ∧
    (ensure_heartbeat st).target_is_active = st.target_is_active ∧
    (ensure_heartbeat st).last_run_time = st.last_run_time ∧
    (ensure_heartbeat st).run_start_time = st.run_start_time ∧
    (ensure_heartbeat st).cooldown_bypass = st.cooldown_bypass ∧
    (ensure_heartbeat st).block_reason = st.block_reason := by
  unfold ensure_heartbeat
  split <;> exact ⟨rfl, rfl, rfl, rfl, rfl, rfl⟩

theorem stop_target_st (env : Env) (st : GuardState) :
    (stop_target env st).st.target_is_active = false ∧
    (stop_target env st).st.last_run_time = some env.now ∧
    (stop_target env st).st.run_start_time = none ∧
    (stop_target env st).st.cooldown_bypass = st.cooldown_bypass ∧
    (stop_target env st).st.block_reason = st.block_reason ∧
    (stop_target env st).st.guard_enabled = st.guard_enabled ∧
    (stop_target env st).cmds = [Cmd.turnOff] := by
  obtain ⟨h1, h2, h3, h4, h5, h6⟩ := stop_heartbeat_fields st
  exact ⟨rfl, rfl, rfl, h5, h6, h1, rfl⟩

theorem start_target_st (cfg : Config) (env : Env) (st : GuardState) :
    (start_target cfg env st).st.target_is_active = true ∧
    (start_target cfg env st).st.cooldown_bypass = false ∧
    (start_target cfg env st).st.run_start_time = some env.now ∧
    (start_target cfg env st).st.guard_enabled = st.guard_enabled ∧
    (start_target cfg env st).st.block_reason = st.block_reason ∧
    (start_target cfg env st).cmds = [Cmd.turnOn] := by
  unfold start_target
  have hp := pulse_const env
  split <;> simp_all [ensure_heartbeat] <;> split <;> simp_all

/-! ## Claims -/

/-- C1: after a decision-procedure run with armed false, the resulting state
has targetActive false and blockReason Guard Disabled, a status snapshot is
published (with those values), and if targetActive was true the Stop command
is dispatched.  Stated for both the coordinator and the switch-entity copy
of _async_check_and_update. -/
theorem claim_C1_disarm_forces_stop (cfg : Config) (env : Env) (st : GuardState)
    (hg : st.guard_enabled = false) :
    (CG.check_and_update cfg env st).st.target_is_active = false ∧
    (CG.check_and_update cfg env st).st.block_reason = some "Guard Disabled" ∧
    (∃ sn, (CG.check_and_update cfg env st).snaps = [sn] ∧
      sn.target_active = false ∧ sn.reason = some "Guard Disabled") ∧
    (st.target_is_active = true →
      (CG.check_and_update cfg env st).cmds = [Cmd.turnOff]) ∧
    (SW.check_and_update cfg env st).st.target_is_active = false ∧
    (SW.check_and_update cfg env st).st.block_reason = some "Guard Disabled" ∧
    (st.target_is_active = true →
      (SW.check_and_update cfg env st).cmds = [Cmd.turnOff]) := by
  obtain ⟨s1, s2, s3, s4, s5, s6, s7⟩ := stop_target_st env st
  unfold CG.check_and_update SW.check_and_update
  rw [hg]
  by_cases ht : st.target_is_active = true <;>
    simp [ht, CG.update_data, SW.attrs, s1, s2, s7] at *

/-- Witness for C1 at a concrete disarmed-but-running state. -/
theorem claim_C1_disarm_forces_stop_witness :
    ({ initState with target_is_active := true } : GuardState).guard_enabled = false ∧
    ((CG.check_and_update exCfg exEnv { initState with target_is_active := true }).st.target_is_active = false ∧
     (CG.check_and_update exCfg exEnv { initState with target_is_active := true }).st.block_reason = some "Guard Disabled" ∧
     (∃ sn, (CG.check_and_update exCfg exEnv { initState with target_is_active := true }).snaps = [sn] ∧
       sn.target_active = false ∧ sn.reason = some "Guard Disabled") ∧
     (({ initState with target_is_active := true } : GuardState).target_is_active = true →
       (CG.check_and_update exCfg exEnv { initState with target_is_active := true }).cmds = [Cmd.turnOff]) ∧
     (SW.check_and_update exCfg exEnv { initState with target_is_active := true }).st.target_is_active = false ∧
     (SW.check_and_update exCfg exEnv { initState with target_is_active := true }).st.block_reason = some "Guard Disabled" ∧
     (({ initState with target_is_active := true } : GuardState).target_is_active = true →
       (SW.check_and_update exCfg exEnv { initState with target_is_active := true }).cmds = [Cmd.turnOff])) :=
  ⟨rfl, claim_C1_disarm_forces_stop exCfg exEnv { initState with target_is_active := true } rfl⟩

/-- C4: with the sun gate reporting below_horizon and the weather gate
reporting an excluded state, both copies of _check_conditions return
Blocked with exactly the sun reason, never the weather or cooldown one. -/
theorem claim_C4_gate_ordering (cfg : Config) (env : Env) (st : GuardState)
    (hs : cfg.sun_entity.isSome = true)
    (hsun : env.sunState = some "below_horizon")
    (_hw : cfg.weather_entity.isSome = true)
    (_ha : cfg.allowed_weather ≠ [])
    (_hwx : ∀ w, env.weatherState = some w → w ∉ cfg.allowed_weather) :
    CG.check_conditions cfg env st = (false, some "Sun is below_horizon") ∧
    SW.check_conditions cfg env st = (false, some "Sun is below_horizon") := by
  have hsg : sun_gate cfg env = some "Sun is below_horizon" := by
    simp [sun_gate, hs, hsun]
  constructor <;> simp [CG.check_conditions, SW.check_conditions, hsg]

/-- Witness for C4: sun below horizon and weather cloudy (not in the
allow-list containing only sunny). -/
theorem claim_C4_gate_ordering_witness :
    CG.check_conditions exCfgGates ⟨0, some "below_horizon", some "cloudy", false⟩ initState
      = (false, some "Sun is below_horizon") ∧
    SW.check_conditions exCfgGates ⟨0, some "below_horizon", some "cloudy", false⟩ initState
      = (false, some "Sun is below_horizon") :=
  claim_C4_gate_ordering exCfgGates ⟨0, some "below_horizon", some "cloudy", false⟩ initState
    rfl rfl rfl (by decide) (by decide)

/-- C8: an unavailable (missing) sun entity state passes the sun gate; the
sun gate blocks only on a known state differing from above_horizon; an
unavailable weather entity blocks with exactly Weather unavailable. -/
theorem claim_C8_unavailable_asymmetry (cfg : Config) (env : Env) :
    (env.sunState = none → sun_gate cfg env = none) ∧
    (∀ r, sun_gate cfg env = some r →
      ∃ s, env.sunState = some s ∧ s ≠ "above_horizon" ∧ r = "Sun is " ++ s) ∧
    (cfg.weather_entity.isSome = true → cfg.allowed_weather ≠ [] →
      env.weatherState = none → weather_gate cfg env = some "Weather unavailable") := by
  refine ⟨?_, ?_, ?_⟩
  · intro h
    unfold sun_gate
    rw [h]
    split <;> rfl
  · intro r hr
    unfold sun_gate at hr
    split at hr
    · split at hr
      next s heq =>
        split at hr
        next hne =>
          injection hr with h
          exact ⟨s, heq, hne, h.symm⟩
        next => exact absurd hr (by simp)
      next => exact absurd hr (by simp)
    · exact absurd hr (by simp)
  · intro hw ha hn
    unfold weather_gate
    rw [if_pos ⟨hw, ha⟩, hn]

/-- Witness for C8: sun entity configured but its state missing, weather
entity configured with a nonempty allow-list but its state missing. -/
theorem claim_C8_unavailable_asymmetry_witness :
    sun_gate exCfgGates ⟨0, none, none, false⟩ = none ∧
    weather_gate exCfgGates ⟨0, none, none, false⟩ = some "Weather unavailable" :=
  ⟨(claim_C8_unavailable_asymmetry exCfgGates ⟨0, none, none, false⟩).1 rfl,
   (claim_C8_unavailable_asymmetry exCfgGates ⟨0, none, none, false⟩).2.2 rfl (by decide) rfl⟩

/-- C5: with cooldown 40 minutes, lastRunEndedAt T and no bypass, the
coordinator gate evaluator blocks with a Cooldown reason for every now with
now - T < 40 minutes and passes the cooldown gate from now - T = 40 minutes
on; with cooldown zero the coordinator cooldown gate never blocks, and the
switch-entity cooldown gate never blocks either provided the clock has not
run backwards past the stored timestamp. -/
theorem claim_C5_cooldown_arithmetic (cfg : Config) (env : Env) (st : GuardState)
    (T : Int)
    (hc : cfg.cooldown_minutes = 40)
    (hl : st.last_run_time = some T)
    (hb : st.cooldown_bypass = false)
    (hsg : sun_gate cfg env = none)
    (hwg : weather_gate cfg env = none) :
    (env.now - T < 2400 →
      CG.check_conditions cfg env st
        = (false, some (cooldownReason (T + 2400 - env.now))) ∧
      ∃ rest, cooldownReason (T + 2400 - env.now) = "Cooldown (" ++ rest) ∧
    (2400 ≤ env.now - T → CG.cooldown_gate cfg env st = none) ∧
    (∀ cfg0 : Config, cfg0.cooldown_minutes = 0 →
      ∀ (env0 : Env) (st0 : GuardState), CG.cooldown_gate cfg0 env0 st0 = none) ∧
    (∀ cfg0 : Config, cfg0.cooldown_minutes = 0 → T ≤ env.now →
      SW.cooldown_gate cfg0 env st = none) := by
  have h2400 : cooldownSecs cfg = 2400 := by norm_num [cooldownSecs, hc]
  refine ⟨?_, ?_, ?_, ?_⟩
  · intro hnow
    have hact : CG.is_cooldown_active cfg env st = true := by
      simp [CG.is_cooldown_active, h2400, hl, hnow]
    constructor
    · have hgate : CG.cooldown_gate cfg env st
          = some (cooldownReason (T + 2400 - env.now)) := by
        simp [CG.cooldown_gate, hact, hb, hl, h2400]
      simp [CG.check_conditions, hsg, hwg, hgate]
    · exact ⟨tdStr (T + 2400 - env.now) ++ ")", by
        simp [cooldownReason, String.append_assoc]⟩
  · intro hnow
    have hact : CG.is_cooldown_active cfg env st = false := by
      simp [CG.is_cooldown_active, h2400, hl]
      omega
    simp [CG.cooldown_gate, hact]
  · intro cfg0 h0 env0 st0
    have hz : cooldownSecs cfg0 = 0 := by norm_num [cooldownSecs, h0]
    simp [CG.cooldown_gate, CG.is_cooldown_active, hz]
  · intro cfg0 h0 hmono
    have hz : cooldownSecs cfg0 = 0 := by norm_num [cooldownSecs, h0]
    have hact : SW.is_cooldown_active cfg0 env st = false := by
      simp [SW.is_cooldown_active, hl, hz]
      omega
    simp [SW.cooldown_gate, hact]

/-- Witness for C5 at T = 0: block at 39 minutes with the one-minute
remaining reason, pass at exactly 40 minutes, and pass under cooldown 0. -/
theorem claim_C5_cooldown_arithmetic_witness :
    (CG.check_conditions exCfg ⟨2340, none, none, false⟩ exCooling
       = (false, some (cooldownReason (0 + 2400 - 2340))) ∧
     ∃ rest, cooldownReason (0 + 2400 - 2340) = "Cooldown (" ++ rest) ∧
    CG.cooldown_gate exCfg ⟨2400, none, none, false⟩ exCooling = none ∧
    CG.cooldown_gate exCfgCd0 ⟨2340, none, none, false⟩ exCooling = none ∧
    SW.cooldown_gate exCfgCd0 ⟨2340, none, none, false⟩ exCooling = none := by
  refine ⟨?_, ?_, ?_, ?_⟩
  · exact (claim_C5_cooldown_arithmetic exCfg ⟨2340, none, none, false⟩ exCooling 0
      rfl rfl rfl rfl rfl).1 (by norm_num)
  · exact (claim_C5_cooldown_arithmetic exCfg ⟨2400, none, none, false⟩ exCooling 0
      rfl rfl rfl rfl rfl).2.1 (by norm_num)
  · exact (claim_C5_cooldown_arithmetic exCfg ⟨2340, none, none, false⟩ exCooling 0
      rfl rfl rfl rfl rfl).2.2.1 exCfgCd0 rfl ⟨2340, none, none, false⟩ exCooling
  · exact (claim_C5_cooldown_arithmetic exCfg ⟨2340, none, none, false⟩ exCooling 0
      rfl rfl rfl rfl rfl).2.2.2 exCfgCd0 rfl (by norm_num)

/-- C6: performing Start always leaves the bypass ticket cleared, and gate
evaluation with an active cooldown and a set ticket returns Allowed without
touching the ticket (in this embedding _check_conditions is a pure function
of the state, so it cannot change the flag; the theorem records the Allowed
verdict for both copies). -/
theorem claim_C6_bypass_ticket (cfg : Config) (env : Env) (st : GuardState) :
    (start_target cfg env st).st.cooldown_bypass = false ∧
    (st.cooldown_bypass = true →
      (CG.is_cooldown_active cfg env st = true →
        sun_gate cfg env = none → weather_gate cfg env = none →
        CG.check_conditions cfg env st = (true, none)) ∧
      (SW.is_cooldown_active cfg env st = true →
        sun_gate cfg env = none → weather_gate cfg env = none →
        SW.check_conditions cfg env st = (true, none))) := by
  refine ⟨(start_target_st cfg env st).2.1, ?_⟩
  intro hb
  constructor
  · intro hact hsg hwg
    have hgate : CG.cooldown_gate cfg env st = none := by
      simp [CG.cooldown_gate, hact, hb]
    simp [CG.check_conditions, hsg, hwg, hgate]
  · intro hact hsg hwg
    have hgate : SW.cooldown_gate cfg env st = none := by
      simp [SW.cooldown_gate, hact, hb]
    simp [SW.check_conditions, hsg, hwg, hgate]

/-- Witness for C6: a start from a state with the ticket set clears it, and
evaluation during an active cooldown with the ticket set is Allowed. -/
theorem claim_C6_bypass_ticket_witness :
    (start_target exCfg ⟨60, none, none, false⟩
        { exCooling with cooldown_bypass := true }).st.cooldown_bypass = false ∧
    CG.check_conditions exCfg ⟨60, none, none, false⟩
        { exCooling with cooldown_bypass := true } = (true, none) ∧
    SW.check_conditions exCfg ⟨60, none, none, false⟩
        { exCooling with cooldown_bypass := true } = (true, none) := by
  have h := claim_C6_bypass_ticket exCfg ⟨60, none, none, false⟩
    { exCooling with cooldown_bypass := true }
  exact ⟨h.1, (h.2 rfl).1 (by decide) rfl rfl, (h.2 rfl).2 (by decide) rfl rfl⟩

theorem cau_active_allowed_CG (cfg : Config) (env : Env) (st : GuardState)
    (hg : st.guard_enabled = true) (ht : st.target_is_active = true)
    (hcc : CG.check_conditions cfg env st = (true, none)) :
    (CG.check_and_update cfg env st).st.target_is_active = true := by
  unfold CG.check_and_update
  simp only [hg, Bool.not_true, Bool.false_eq_true, if_false, hcc]
  simp only [ht, Bool.not_true, Bool.false_eq_true, if_true, if_false]
  split <;> simp [ensure_heartbeat, ht] <;> split <;> simp [ht]

theorem cau_active_allowed_SW (cfg : Config) (env : Env) (st : GuardState)
    (hg : st.guard_enabled = true) (ht : st.target_is_active = true)
    (hcc : SW.check_conditions cfg env st = (true, none)) :
    (SW.check_and_update cfg env st).st.target_is_active = true := by
  unfold SW.check_and_update
  simp only [hg, Bool.not_true, Bool.false_eq_true, if_false, hcc]
  simp only [ht, Bool.not_true, Bool.false_eq_true, if_true, if_false]
  split <;> simp [ensure_heartbeat, ht] <;> split <;> simp [ht]

/-- C3: with run limit 10 minutes and runStartedAt T, a heartbeat tick at
T plus 11 minutes performs Stop (target inactive, exactly the off-command
dispatched, no snapshot published that tick) in both implementations; the
comparison is strict, so a tick at exactly T plus 10 minutes does not stop
a gate-allowed target. -/
theorem claim_C3_run_limit_strict (cfg : Config) (st : GuardState) (T : Int)
    (s w : Option String) (b : Bool)
    (hrl : cfg.run_limit_minutes = 10)
    (hg : st.guard_enabled = true)
    (ht : st.target_is_active = true)
    (hrs : st.run_start_time = some T)
    (hlr : st.last_run_time = none) :
    ((SW.heartbeat_tick cfg ⟨T + 660, s, w, b⟩ st).st.target_is_active = false ∧
     (SW.heartbeat_tick cfg ⟨T + 660, s, w, b⟩ st).cmds = [Cmd.turnOff] ∧
     (SW.heartbeat_tick cfg ⟨T + 660, s, w, b⟩ st).snaps = [] ∧
     (CG.heartbeat_tick cfg ⟨T + 660, s, w, b⟩ st).st.target_is_active = false ∧
     (CG.heartbeat_tick cfg ⟨T + 660, s, w, b⟩ st).cmds = [Cmd.turnOff] ∧
     (CG.heartbeat_tick cfg ⟨T + 660, s, w, b⟩ st).snaps = []) ∧
    (sun_gate cfg ⟨T + 600, s, w, b⟩ = none →
     weather_gate cfg ⟨T + 600, s, w, b⟩ = none →
     (SW.heartbeat_tick cfg ⟨T + 600, s, w, b⟩ st).st.target_is_active = true ∧
     (CG.heartbeat_tick cfg ⟨T + 600, s, w, b⟩ st).st.target_is_active = true) := by
  have h600 : runLimitSecs cfg = 600 := by norm_num [runLimitSecs, hrl]
  obtain ⟨s1, s2, s3, s4, s5, s6, s7⟩ := stop_target_st (⟨T + 660, s, w, b⟩ : Env) st
  constructor
  · refine ⟨?_, ?_, ?_, ?_, ?_, ?_⟩ <;>
      simp [SW.heartbeat_tick, CG.heartbeat_tick, ht, hrs, h600, s1, s7]
  · intro hsg hwg
    have hcd : CG.cooldown_gate cfg ⟨T + 600, s, w, b⟩ st = none := by
      simp [CG.cooldown_gate, CG.is_cooldown_active, hlr]
    have hcd2 : SW.cooldown_gate cfg ⟨T + 600, s, w, b⟩ st = none := by
      simp [SW.cooldown_gate, SW.is_cooldown_active, hlr]
    have hccCG : CG.check_conditions cfg ⟨T + 600, s, w, b⟩ st = (true, none) := by
      simp [CG.check_conditions, hsg, hwg, hcd]
    have hccSW : SW.check_conditions cfg ⟨T + 600, s, w, b⟩ st = (true, none) := by
      simp [SW.check_conditions, hsg, hwg, hcd2]
    constructor
    · have := cau_active_allowed_SW cfg ⟨T + 600, s, w, b⟩ st hg ht hccSW
      simp [SW.heartbeat_tick, ht, hrs, h600, this]
    · have := cau_active_allowed_CG cfg ⟨T + 600, s, w, b⟩ st hg ht hccCG
      simp [CG.heartbeat_tick, ht, hrs, h600, this]

/-- Witness for C3 at T = 0 with no gates configured. -/
theorem claim_C3_run_limit_strict_witness :
    (SW.heartbeat_tick exCfg ⟨660, none, none, false⟩ exRunning).st.target_is_active = false ∧
    (SW.heartbeat_tick exCfg ⟨660, none, none, false⟩ exRunning).cmds = [Cmd.turnOff] ∧
    (CG.heartbeat_tick exCfg ⟨660, none, none, false⟩ exRunning).st.target_is_active = false ∧
    (SW.heartbeat_tick exCfg ⟨600, none, none, false⟩ exRunning).st.target_is_active = true ∧
    (CG.heartbeat_tick exCfg ⟨600, none, none, false⟩ exRunning).st.target_is_active = true := by
  have h := claim_C3_run_limit_strict exCfg exRunning 0 none none false
    rfl rfl rfl rfl rfl
  have h2 := h.2 rfl rfl
  simpa using ⟨h.1.1, h.1.2.1, h.1.2.2.2.1, h2.1, h2.2⟩

/-- C2: with run limit configured to zero, the switch-entity heartbeat tick
stops the running gate-allowed target at the very first tick after the run
started (now minus runStartedAt is 1 second, which exceeds a zero
timedelta), dispatching the off-command, while the coordinator heartbeat
tick, which guards the comparison with a nonzero check, keeps the target
active and does not dispatch any off-command.  This evaluates both copies
of the code at the same input and exhibits their divergence. -/
theorem claim_C2_run_limit_zero_divergence :
    (SW.heartbeat_tick exCfgRL0 ⟨1, none, none, false⟩ exRunning).st.target_is_active = false ∧
    (SW.heartbeat_tick exCfgRL0 ⟨1, none, none, false⟩ exRunning).cmds = [Cmd.turnOff] ∧
    (CG.heartbeat_tick exCfgRL0 ⟨1, none, none, false⟩ exRunning).st.target_is_active = true ∧
    Cmd.turnOff ∉ (CG.heartbeat_tick exCfgRL0 ⟨1, none, none, false⟩ exRunning).cmds := by
  refine ⟨by decide, by decide, by decide, by decide⟩

/-- C9: dispatch faults are contained.  The raw blocking on-command call can
genuinely fail, _pulse_target_on swallows the failure and still returns, the
outcome of the dispatch has no effect whatsoever on the result of the
decision procedure or of a heartbeat tick (both copies), and a Start whose
pulse failed still has targetActive true (no rollback). -/
theorem claim_C9_dispatch_fault_containment (cfg : Config) (st : GuardState)
    (n : Int) (s w : Option String) (b1 b2 : Bool) :
    (async_call_turn_on ⟨n, s, w, true⟩).isOk = false ∧
    pulse_target_on ⟨n, s, w, b1⟩ = [Cmd.turnOn] ∧
    CG.check_and_update cfg ⟨n, s, w, b1⟩ st = CG.check_and_update cfg ⟨n, s, w, b2⟩ st ∧
    CG.heartbeat_tick cfg ⟨n, s, w, b1⟩ st = CG.heartbeat_tick cfg ⟨n, s, w, b2⟩ st ∧
    SW.check_and_update cfg ⟨n, s, w, b1⟩ st = SW.check_and_update cfg ⟨n, s, w, b2⟩ st ∧
    (start_target cfg ⟨n, s, w, true⟩ st).st.target_is_active = true := by
  refine ⟨rfl, pulse_const _, ?_, ?_, ?_,
    (start_target_st cfg ⟨n, s, w, true⟩ st).1⟩ <;>
    cases b1 <;> cases b2 <;> rfl

/-- C10: set_guard_state with last_run None overwrites exactly the armed
flag (the stored last run time and every other field are untouched), always
schedules a re-evaluation, and with a datetime (always truthy) overwrites
the stored last run time as well. -/
theorem claim_C10_set_guard_state_frame (st : GuardState) (enabled : Bool) (t : Int) :
    (CG.set_guard_state st enabled none).1 = { st with guard_enabled := enabled } ∧
    (CG.set_guard_state st enabled none).1.last_run_time = st.last_run_time ∧
    (CG.set_guard_state st enabled none).2 = true ∧
    (CG.set_guard_state st enabled (some t)).1 =
      { st with guard_enabled := enabled, last_run_time := some t } ∧
    (CG.set_guard_state st enabled (some t)).2 = true :=
  ⟨rfl, rfl, rfl, rfl, rfl⟩

theorem cau_bypass_SW (cfg : Config) (env : Env) (st : GuardState)
    (h : st.cooldown_bypass = false) :
    (SW.check_and_update cfg env st).st.cooldown_bypass = false := by
  simp only [SW.check_and_update, stop_target, stop_heartbeat, start_target,
    ensure_heartbeat]
  split_ifs <;> simp_all

theorem tick_bypass_SW (cfg : Config) (env : Env) (st : GuardState)
    (h : st.cooldown_bypass = false) :
    (SW.heartbeat_tick cfg env st).st.cooldown_bypass = false := by
  have hc := cau_bypass_SW cfg env st h
  have hs := (stop_target_st env st).2.2.2.1
  simp only [SW.heartbeat_tick]
  split_ifs <;> simp_all

theorem step_bypass (cfg : Config) (st : GuardState) (t : Trigger)
    (h : st.cooldown_bypass = false) (hnb : setsBypassB cfg t = false) :
    (stepT cfg st t).cooldown_bypass = false := by
  cases t with
  | arm env => exact cau_bypass_SW cfg env _ (by simpa using h)
  | disarm env => exact cau_bypass_SW cfg env _ (by simpa using h)
  | tick env => exact tick_bypass_SW cfg env st h
  | dep env ev =>
    simp only [stepT, SW.on_dependency_change]
    simp only [setsBypassB, Bool.and_eq_false_iff, decide_eq_false_iff_not] at hnb
    rcases hnb with hne | hm
    · exact cau_bypass_SW cfg env _ (by simp [hne, h])
    · apply cau_bypass_SW
      split
      · cases hot : ev.old_temp <;> cases hnt : ev.new_temp <;> simp_all
      · exact h

/-- C7 fails on the code: starting from the constructor state of a
disarmed controller, a single thermostat setpoint-change event (the
temperature attribute moving from 20 to 21) yields a reachable state with
cooldownBypass true and armed false, because _on_dependency_change arms the
bypass without consulting the armed flag. -/
theorem claim_C7_counterexample :
    (runT exCfgClimate initState
        [Trigger.dep ⟨0, none, none, false⟩ ⟨"climate.c", some (some 20), some (some 21)⟩]
      ).cooldown_bypass = true ∧
    (runT exCfgClimate initState
        [Trigger.dep ⟨0, none, none, false⟩ ⟨"climate.c", some (some 20), some (some 21)⟩]
      ).guard_enabled = false := by
  refine ⟨by decide, by decide⟩

/-- C7 amended: a thermostat setpoint change arms the bypass ticket whether
or not the guard is armed, so the original invariant fails; what does hold
is that no other trigger can set the ticket: starting from any state with
cooldownBypass false, every sequence of triggers containing no thermostat
setpoint-change event leaves cooldownBypass false (so a disarmed state
with the ticket set is unreachable without such an event). -/
theorem claim_C7_bypass_only_by_setpoint (cfg : Config) (st : GuardState)
    (ts : List Trigger)
    (hb : st.cooldown_bypass = false)
    (hts : ∀ t ∈ ts, setsBypassB cfg t = false) :
    (runT cfg st ts).cooldown_bypass = false := by
  induction ts generalizing st with
  | nil => simpa [runT] using hb
  | cons t ts ih =>
    exact ih (stepT cfg st t)
      (step_bypass cfg st t hb (hts t (List.mem_cons_self t ts)))
      (fun t' ht' => hts t' (List.mem_cons_of_mem t ht'))

/-- Witness for C7 amended: an arm, a heartbeat tick and a disarm (no
setpoint change) leave the ticket clear. -/
theorem claim_C7_bypass_only_by_setpoint_witness :
    initState.cooldown_bypass = false ∧
    (∀ t ∈ [Trigger.arm exEnv, Trigger.tick exEnv, Trigger.disarm exEnv],
      setsBypassB exCfgClimate t = false) ∧
    (runT exCfgClimate initState
        [Trigger.arm exEnv, Trigger.tick exEnv, Trigger.disarm exEnv]
      ).cooldown_bypass = false :=
  ⟨rfl, by decide,
    claim_C7_bypass_only_by_setpoint exCfgClimate initState
      [Trigger.arm exEnv, Trigger.tick exEnv, Trigger.disarm exEnv]
      rfl (by decide)⟩
